import Mathlib

/-!
# Course-scheduler registration core: a shallow embedding

This file embeds the registration core of the course-scheduler app
(`src/src/App.js`) in Lean 4 and proves the spec's testable properties
about it.

Modelling conventions:
* Times in minutes are `Option Nat`; `none` models the JavaScript `NaN`
  produced by `Number(...)` on a malformed component (any `NaN` operand
  makes `timesOverlap` false, matching `Math.max/min` and `<` on `NaN`).
* A student's `registrations` field is a plain `List String`; a missing
  field in JavaScript (`s.registrations || []`, `s.registrations?.includes`)
  behaves exactly like the empty list at every use site.
* `Course.seats` is `Option Nat`; `none` models an absent/undefined seats
  field. The JavaScript `course.seats || 9999` maps `undefined` and `0`
  to `9999` (`effSeats` below).
* Each store operation returns the new store paired with the status
  message it sets; a validation failure returns the unchanged store.
  `registerCourse` returns `Option (Store × String)`: `none` models the
  uncaught `TypeError` thrown when the student lookup comes back
  `undefined` and `.registrations` is read off it.
-/

namespace CourseScheduler

/-- A course record, field-for-field from the JS course objects
(`id`, `name`, `code`, `description`, `days`, `start`, `end`,
`dateRange`, `seats`); the JS `end` field is `endT` here (`end` is a
Lean keyword). -/
structure Course where
  id : String
  name : String
  code : String
  description : String
  days : List String
  start : String
  endT : String
  dateRange : String
  seats : Option Nat
deriving Repr, DecidableEq

/-- An admin account record (`username`, `password`, `name`). -/
structure Admin where
  username : String
  password : String
  name : String
deriving Repr, DecidableEq

/-- A student account record: an admin-shaped record plus the ordered
`registrations` list of course ids. -/
structure Student where
  username : String
  password : String
  name : String
  registrations : List String
deriving Repr, DecidableEq

/-- The `users` object of the store: `{ admins: [...], students: [...] }`. -/
structure Users where
  admins : List Admin
  students : List Student
deriving Repr, DecidableEq

/-- The whole persisted store: `{ users: {...}, courses: [...] }`. -/
structure Store where
  users : Users
  courses : List Course
deriving Repr, DecidableEq

/-- JavaScript `String.prototype.split` on a one-character separator,
over the character list: the pieces between separator occurrences,
empty pieces included; the empty string splits to `[[]]`. -/
def splitSep (sep : Char) : List Char → List (List Char)
  | [] => [[]]
  | c :: cs =>
    match splitSep sep cs with
    | [] => if c = sep then [[], []] else [[c]]
    | r :: rs => if c = sep then [] :: r :: rs else (c :: r) :: rs

/-- JavaScript `Number(s)` restricted to the shapes that occur in time
strings: the empty string is `0`, a plain decimal-digit string is its
value, anything else is `NaN` (modelled `none`). -/
def jsNumber (cs : List Char) : Option Nat :=
  match cs with
  | [] => some 0
  | _ =>
    if cs.all Char.isDigit then
      some (cs.foldl (fun acc c => acc * 10 + (c.toNat - 48)) 0)
    else none

/-- Function `timeToMinutes(t)` from App.js: split on `":"`, destructure the first
two parts as `hh`, `mm` (a missing part is `undefined`, hence `NaN`),
and return `hh * 60 + mm`; any `NaN` component makes the result `NaN`. -/
def timeToMinutes (t : String) : Option Nat :=
  match splitSep ':' t.toList with
  | [] => none
  | [_] => none
  | h :: m :: _ =>
    match jsNumber h, jsNumber m with
    | some hh, some mm => some (hh * 60 + mm)
    | _, _ => none

/-- Function `timesOverlap(aStart, aEnd, bStart, bEnd)` from App.js:
`Math.max(aStart, bStart) < Math.min(aEnd, bEnd)`; any `NaN` argument
makes the comparison false. -/
def timesOverlap (aStart aEnd bStart bEnd : Option Nat) : Bool :=
  match aStart, aEnd, bStart, bEnd with
  | some a1, some a2, some b1, some b2 => max a1 b1 < min a2 b2
  | _, _, _, _ => false

/-- Function `checkConflict(courseA, courseB)` from App.js: conflict iff some day
of `courseA` occurs among the days of `courseB` and the two time
intervals overlap. -/
def checkConflict (courseA courseB : Course) : Bool :=
  if courseA.days.any (fun d => courseB.days.contains d) then
    timesOverlap (timeToMinutes courseA.start) (timeToMinutes courseA.endT)
      (timeToMinutes courseB.start) (timeToMinutes courseB.endT)
  else false

/-- Status messages of the store operations, named after the error
taxonomy of the specification. -/
def DuplicateIdError : String := "Course with same ID already exists."

/-- Message set when the target course id does not exist. -/
def CourseNotFoundError : String := "Course not found"

/-- Message set when the seat check rejects a registration. -/
def SeatsFullError : String := "No seats available"

/-- Message set when the schedule-conflict check rejects a registration. -/
def ConflictError : String := "Cannot register due to a schedule conflict"

/-- Message set when an admin username is already taken. -/
def DuplicateAdminUsernameError : String := "Admin username taken"

/-- Message set when a student username is already taken. -/
def DuplicateStudentUsernameError : String := "Student username taken"

/-- Function `addCourse(course)` from App.js: reject when some existing course has
the same id, else append the course. -/
def addCourse (data : Store) (course : Course) : Store × String :=
  if (data.courses.find? (fun c => c.id == course.id)).isSome then
    (data, DuplicateIdError)
  else
    ({ data with courses := data.courses ++ [course] }, "Course added")

/-- Function `updateCourse(updated)` from App.js: map over the course list,
replacing every course whose id equals `updated.id`. -/
def updateCourse (data : Store) (updated : Course) : Store × String :=
  ({ data with
      courses := data.courses.map (fun c => if c.id == updated.id then updated else c) },
    "Course updated")

/-- Function `deleteCourse(id)` from App.js: drop `id` from every student's
registration list and drop the course itself from the course list. -/
def deleteCourse (data : Store) (id : String) : Store × String :=
  let newStudents := data.users.students.map
    (fun s => { s with registrations := s.registrations.filter (fun r => r != id) })
  let newCourses := data.courses.filter (fun c => c.id != id)
  ({ data with courses := newCourses, users := { data.users with students := newStudents } },
    "Course deleted and registrations updated")

/-- The effective seat cap of `course.seats || 9999`: `undefined` and `0`
are falsy in JavaScript, so both fall back to `9999`. -/
def effSeats : Option Nat → Nat
  | none => 9999
  | some 0 => 9999
  | some (n + 1) => n + 1

/-- The `registrationsCount` reduction in `registerCourse`: the number of
students whose registration list contains `courseId`. -/
def seatCount (data : Store) (courseId : String) : Nat :=
  data.users.students.foldl
    (fun acc s => acc + (if s.registrations.contains courseId then 1 else 0)) 0

/-- Function `registerCourse(studentUsername, courseId)` from App.js, step by step:
course lookup, seat check, student lookup, conflict check against the
student's registered courses, then append `courseId` to the student's
registration list. `none` models the `TypeError` thrown when no student
matches `studentUsername` (reading `.registrations` of `undefined`). -/
def registerCourse (data : Store) (studentUsername courseId : String) :
    Option (Store × String) :=
  match data.courses.find? (fun c => c.id == courseId) with
  | none => some (data, CourseNotFoundError)
  | some course =>
    if seatCount data courseId ≥ effSeats course.seats then
      some (data, SeatsFullError)
    else
      match data.users.students.find? (fun s => s.username == studentUsername) with
      | none => none
      | some student =>
        let regCourses := data.courses.filter (fun c => student.registrations.contains c.id)
        if regCourses.any (fun rc => checkConflict rc course) then
          some (data, ConflictError)
        else
          let newStudents := data.users.students.map
            (fun s => if s.username == studentUsername then
                { s with registrations := s.registrations ++ [courseId] }
              else s)
          some ({ data with users := { data.users with students := newStudents } },
            "Registered successfully")

/-- Function `unregisterCourse(studentUsername, courseId)` from App.js: filter the
course id out of the matching student's registration list. -/
def unregisterCourse (data : Store) (studentUsername courseId : String) : Store × String :=
  let newStudents := data.users.students.map
    (fun s => if s.username == studentUsername then
        { s with registrations := s.registrations.filter (fun r => r != courseId) }
      else s)
  ({ data with users := { data.users with students := newStudents } }, "Unregistered")

/-- Function `addUser(type, user)` from App.js: admins and students are checked
and stored in separate collections; a freshly added student gets
`registrations: []`. -/
def addUser (data : Store) (type : String) (user : Admin) : Store × String :=
  if type == "admin" then
    if (data.users.admins.find? (fun a => a.username == user.username)).isSome then
      (data, DuplicateAdminUsernameError)
    else
      ({ data with users := { data.users with admins := data.users.admins ++ [user] } },
        "Admin added")
  else
    if (data.users.students.find? (fun s => s.username == user.username)).isSome then
      (data, DuplicateStudentUsernameError)
    else
      ({ data with users := { data.users with
          students := data.users.students ++
            [{ username := user.username, password := user.password,
               name := user.name, registrations := [] }] } },
        "Student added")

/-! ## Conflict checker properties (C4, C5, C6) -/

/-- Day-set intersection as computed in `checkConflict` is symmetric. -/
theorem any_contains_comm (l1 l2 : List String) :
    l1.any (fun d => l2.contains d) = l2.any (fun d => l1.contains d) := by
  rw [Bool.eq_iff_iff, List.any_eq_true, List.any_eq_true]
  constructor
  · rintro ⟨x, hx, hc⟩
    exact ⟨x, List.elem_iff.mp hc, List.elem_iff.mpr hx⟩
  · rintro ⟨x, hx, hc⟩
    exact ⟨x, List.elem_iff.mp hc, List.elem_iff.mpr hx⟩

/-- Overlap testing is symmetric: `timesOverlap` is unchanged under swapping the two intervals. -/
theorem timesOverlap_comm (a1 a2 b1 b2 : Option Nat) :
    timesOverlap a1 a2 b1 b2 = timesOverlap b1 b2 a1 a2 := by
  cases a1 <;> cases a2 <;> cases b1 <;> cases b2 <;>
    simp [timesOverlap, Nat.max_comm, Nat.min_comm]

/-- C4: for every pair of courses `A` and `B`, the conflict check is
symmetric: `checkConflict A B = checkConflict B A`. -/
theorem c4_checkConflict_symm (A B : Course) :
    checkConflict A B = checkConflict B A := by
  unfold checkConflict
  rw [any_contains_comm]
  by_cases h : B.days.any (fun d => A.days.contains d) = true
  · rw [if_pos h, if_pos h, timesOverlap_comm]
  · rw [if_neg h, if_neg h]

/-- A same-day course running 09:00–10:00. -/
def courseNine : Course :=
  { id := "A", name := "A", code := "A", description := "", days := ["Mon"],
    start := "09:00", endT := "10:00", dateRange := "", seats := some 30 }

/-- A same-day course running 10:00–11:00, back-to-back with `courseNine`. -/
def courseTen : Course :=
  { id := "B", name := "B", code := "B", description := "", days := ["Mon"],
    start := "10:00", endT := "11:00", dateRange := "", seats := some 30 }

/-- Course `courseNine` stretched one minute later, to 10:01. -/
def courseNineLate : Course := { courseNine with endT := "10:01" }

/-- Course `courseTen` started one minute earlier, at 09:59. -/
def courseTenEarly : Course := { courseTen with start := "09:59" }

/-- C5: interval overlap is half-open — on well-formed times it is
exactly `max(aStart, bStart) < min(aEnd, bEnd)`; a course ending at
10:00 does not conflict with a same-day course starting at 10:00, and
shifting either time one minute into overlap makes them conflict. -/
theorem c5_half_open_overlap :
    (∀ a1 a2 b1 b2 : Nat,
      timesOverlap (some a1) (some a2) (some b1) (some b2) =
        decide (max a1 b1 < min a2 b2)) ∧
    checkConflict courseNine courseTen = false ∧
    checkConflict courseNineLate courseTen = true ∧
    checkConflict courseNine courseTenEarly = true := by
  refine ⟨fun a1 a2 b1 b2 => rfl, by decide, by decide, by decide⟩

/-- C6: two courses whose weekday-label sets share no element never
conflict, whatever their times. -/
theorem c6_disjoint_days_no_conflict (A B : Course)
    (h : A.days.all (fun d => !(B.days.contains d)) = true) :
    checkConflict A B = false := by
  have hany : A.days.any (fun d => B.days.contains d) = false := by
    rw [List.any_eq_false]
    intro d hd
    have := List.all_eq_true.mp h d hd
    simpa using this
  unfold checkConflict
  rw [hany]
  rfl

/-- Concrete instance for C6: `courseNine` on Mon against a Tue/Thu
course with identical times does not conflict. -/
theorem c6_disjoint_days_no_conflict_witness :
    (["Mon"] : List String).all
        (fun d => !((["Tue", "Thu"] : List String).contains d)) = true ∧
      checkConflict courseNine { courseNine with days := ["Tue", "Thu"] } = false :=
  ⟨by decide, c6_disjoint_days_no_conflict _ _ (by decide)⟩

/-! ## Store operation properties (C3, C7, C8) -/

/-- The hardcoded `defaultData` dataset of App.js (two demo admins, two
demo students, two demo courses). -/
def defaultData : Store :=
  { users :=
      { admins :=
          [ { username := "admin1", password := "admin1", name := "Admin One" },
            { username := "admin2", password := "admin2", name := "Admin Two" } ],
        students :=
          [ { username := "student1", password := "student1", name := "Student One",
              registrations := [] },
            { username := "student2", password := "student2", name := "Student Two",
              registrations := [] } ] },
    courses :=
      [ { id := "CSE101", name := "Introduction to Programming", code := "CSE101",
          description := "Basics of programming in Python: variables, loops, functions.",
          days := ["Mon", "Wed"], start := "09:00", endT := "10:30",
          dateRange := "2025-12-01 to 2026-03-30", seats := some 30 },
        { id := "MAT201", name := "Discrete Mathematics", code := "MAT201",
          description := "Logic, sets, relations, combinatorics and graph theory.",
          days := ["Tue", "Thu"], start := "11:00", endT := "12:30",
          dateRange := "2025-12-01 to 2026-03-30", seats := some 25 } ] }

/-- C3: after `deleteCourse data id`, no course in the store carries the
deleted identifier and no student's registration list contains it. -/
theorem c3_deleteCourse_cascade (data : Store) (id : String) :
    ((deleteCourse data id).1.courses.all (fun c => c.id != id) = true) ∧
    ((deleteCourse data id).1.users.students.all
        (fun s => !(s.registrations.contains id)) = true) := by
  constructor
  · rw [List.all_eq_true]
    intro c hc
    simp only [deleteCourse] at hc
    have hpc := List.of_mem_filter hc
    simpa using hpc
  · rw [List.all_eq_true]
    intro s hs
    simp only [deleteCourse] at hs
    obtain ⟨t, _, rfl⟩ := List.mem_map.mp hs
    simp only [Bool.not_eq_true']
    rw [Bool.eq_false_iff]
    intro hcon
    have hmem : id ∈ t.registrations.filter (fun r => r != id) :=
      List.elem_iff.mp hcon
    have := (List.mem_filter.mp hmem).2
    simp at this

/-- C7: `addCourse` rejects with `DuplicateIdError` and leaves the store
unchanged exactly when some existing course already has the new course's
identifier; otherwise it appends the course at the end of the list and
leaves the users untouched. -/
theorem c7_addCourse_spec (data : Store) (course : Course) :
    addCourse data course =
      if ∃ c ∈ data.courses, c.id = course.id then (data, DuplicateIdError)
      else ({ data with courses := data.courses ++ [course] }, "Course added") := by
  unfold addCourse
  rcases hf : data.courses.find? (fun c => c.id == course.id) with _ | c
  · have hno : ¬ ∃ c ∈ data.courses, c.id = course.id := by
      rw [List.find?_eq_none] at hf
      rintro ⟨c, hc, he⟩
      exact hf c hc (by simpa using he)
    rw [hf]
    simp [hno]
  · have hyes : ∃ c ∈ data.courses, c.id = course.id :=
      ⟨c, List.mem_of_find?_eq_some hf, by simpa using List.find?_some hf⟩
    rw [hf]
    simp [hyes]

/-- C8: `updateCourse` keeps the users intact, rewrites position `i` of
the course list to the updated record exactly when the course there
carries the updated identifier (all other positions unchanged), and is a
complete no-op when no course carries that identifier. -/
theorem c8_updateCourse_spec (data : Store) (updated : Course) :
    (updateCourse data updated).1.users = data.users ∧
    (∀ i : Nat, (updateCourse data updated).1.courses[i]? =
      (data.courses[i]?).map (fun c => if c.id = updated.id then updated else c)) ∧
    ((∀ c ∈ data.courses, c.id ≠ updated.id) → (updateCourse data updated).1 = data) := by
  have hfun : (fun c : Course => if c.id == updated.id then updated else c) =
      (fun c : Course => if c.id = updated.id then updated else c) := by
    funext c
    by_cases h : c.id = updated.id <;> simp [h]
  refine ⟨rfl, ?_, ?_⟩
  · intro i
    simp only [updateCourse, hfun]
    exact List.getElem?_map _ data.courses i
  · intro h
    have hmap : data.courses.map (fun c => if c.id == updated.id then updated else c) =
        data.courses := by
      rw [hfun]
      calc data.courses.map (fun c => if c.id = updated.id then updated else c)
          = data.courses.map id := List.map_congr_left (fun c hc => by simp [h c hc])
        _ = data.courses := List.map_id data.courses
    simp only [updateCourse, hmap]

/-- Concrete instance for C8: updating a course whose id is absent from
the demo dataset leaves the store untouched. -/
theorem c8_updateCourse_spec_witness :
    (∀ c ∈ defaultData.courses, c.id ≠ "PHY301") ∧
      (updateCourse defaultData { courseNine with id := "PHY301" }).1 = defaultData :=
  ⟨by decide, (c8_updateCourse_spec defaultData { courseNine with id := "PHY301" }).2.2
    (by decide)⟩

/-! ## User management (C9) -/

/-- C9: `addUser` rejects with the duplicate-username message exactly
when the username is already present in the target role's own
collection — the admin check only consults admins and the student check
only consults students, so the two namespaces are independent — and a
successfully added student is stored with an empty registration list. -/
theorem c9_addUser_spec (data : Store) (user : Admin) :
    (addUser data "admin" user =
      if ∃ a ∈ data.users.admins, a.username = user.username then
        (data, DuplicateAdminUsernameError)
      else
        ({ data with users := { data.users with admins := data.users.admins ++ [user] } },
          "Admin added")) ∧
    (addUser data "student" user =
      if ∃ s ∈ data.users.students, s.username = user.username then
        (data, DuplicateStudentUsernameError)
      else
        ({ data with users := { data.users with
            students := data.users.students ++
              [{ username := user.username, password := user.password,
                 name := user.name, registrations := [] }] } },
          "Student added")) := by
  constructor
  · rcases hf : data.users.admins.find? (fun a => a.username == user.username) with _ | a
    · have hno : ¬ ∃ a ∈ data.users.admins, a.username = user.username := by
        rw [List.find?_eq_none] at hf
        rintro ⟨a, ha, he⟩
        exact hf a ha (by simpa using he)
      simp [addUser, hf, hno]
    · have hyes : ∃ a ∈ data.users.admins, a.username = user.username :=
        ⟨a, List.mem_of_find?_eq_some hf, by simpa using List.find?_some hf⟩
      simp [addUser, hf, hyes]
  · rcases hf : data.users.students.find? (fun s => s.username == user.username) with _ | s
    · have hno : ¬ ∃ s ∈ data.users.students, s.username = user.username := by
        rw [List.find?_eq_none] at hf
        rintro ⟨s, hs, he⟩
        exact hf s hs (by simpa using he)
      simp [addUser, hf, hno]
    · have hyes : ∃ t ∈ data.users.students, t.username = user.username :=
        ⟨s, List.mem_of_find?_eq_some hf, by simpa using List.find?_some hf⟩
      simp [addUser, hf, hyes]

/-! ## Registration (C1, C2, C10) -/

/-- Evaluation of `registerCourse` on the seats-full branch: once the
course is found and the usage count reaches the effective cap, the
result is the unchanged store with the seats-full message. -/
theorem registerCourse_seatsFull (data : Store) (u cid : String) (course : Course)
    (hc : data.courses.find? (fun c => c.id == cid) = some course)
    (hs : effSeats course.seats ≤ seatCount data cid) :
    registerCourse data u cid = some (data, SeatsFullError) := by
  simp [registerCourse, hc, ge_iff_le, hs]

/-- C1 (amended): for an existing course, `registerCourse` fails with
`SeatsFullError` — leaving the whole store, hence the student's
registration list, unchanged — exactly when the count of students
registered for the course has reached the effective cap
`effSeats course.seats`, which is `course.seats` when that field is
present and nonzero and `9999` (not unlimited, not zero) otherwise. -/
theorem c1_registerCourse_seats (data : Store) (u cid : String) (course : Course)
    (hc : data.courses.find? (fun c => c.id == cid) = some course) :
    registerCourse data u cid = some (data, SeatsFullError) ↔
      effSeats course.seats ≤ seatCount data cid := by
  constructor
  · intro h
    by_contra hs
    rcases hstu : data.users.students.find? (fun s => s.username == u) with _ | student
    · have hev : registerCourse data u cid = none := by
        simp [registerCourse, hc, ge_iff_le, hs, hstu]
      rw [hev] at h
      exact Option.noConfusion h
    · by_cases hcf : (data.courses.filter
          (fun c => student.registrations.contains c.id)).any
            (fun rc => checkConflict rc course) = true
      · have hev : registerCourse data u cid = some (data, ConflictError) := by
          simp only [registerCourse, hc, ge_iff_le, hs, hstu, hcf, eq_self_iff_true,
            ite_false, ite_true]
        rw [hev] at h
        have hmsg : ConflictError = SeatsFullError :=
          congrArg Prod.snd (Option.some.inj h)
        exact absurd hmsg (by decide)
      · have hev : (registerCourse data u cid).map Prod.snd =
            some "Registered successfully" := by
          simp only [registerCourse, hc, ge_iff_le, hs, hstu, hcf, eq_self_iff_true,
            ite_false, ite_true, Option.map_some']
          rfl
        rw [h] at hev
        have hmsg : SeatsFullError = "Registered successfully" := by
          simpa using hev
        exact absurd hmsg (by decide)
  · intro hs
    exact registerCourse_seatsFull data u cid course hc hs

/-- Concrete instance for C1: the second demo course `MAT201` has 25
seats; with 25 distinct students registered, a 26th registration fails
with `SeatsFullError` and leaves the store unchanged. -/
def fullStore : Store :=
  { users :=
      { admins := [],
        students :=
          (List.range 25).map (fun i =>
            { username := "s" ++ toString i, password := "p", name := "S",
              registrations := ["MAT201"] }) ++
          [{ username := "late", password := "p", name := "L", registrations := [] }] },
    courses := defaultData.courses }

/-- Witness for C1: in `fullStore` the seat usage of `MAT201` has
reached its cap of 25 and the 26th registration is rejected with the
store unchanged. -/
theorem c1_registerCourse_seats_witness :
    registerCourse fullStore "late" "MAT201" = some (fullStore, SeatsFullError) :=
  (c1_registerCourse_seats fullStore "late" "MAT201"
    { id := "MAT201", name := "Discrete Mathematics", code := "MAT201",
      description := "Logic, sets, relations, combinatorics and graph theory.",
      days := ["Tue", "Thu"], start := "11:00", endT := "12:30",
      dateRange := "2025-12-01 to 2026-03-30", seats := some 25 }
    (by decide)).mpr (by decide)

/-- A course whose stored seat capacity is the number 0. -/
def zeroSeatCourse : Course :=
  { id := "ZERO", name := "Zero", code := "Z0", description := "", days := ["Mon"],
    start := "09:00", endT := "10:00", dateRange := "", seats := some 0 }

/-- A one-student store whose only course has `seats = 0`. -/
def zeroSeatStore : Store :=
  { users :=
      { admins := [],
        students :=
          [{ username := "alice", password := "a", name := "Alice",
             registrations := [] }] },
    courses := [zeroSeatCourse] }

/-- A course record with no stored seat capacity. -/
def noCapCourse : Course :=
  { id := "FREE", name := "Free", code := "F", description := "", days := ["Mon"],
    start := "09:00", endT := "10:00", dateRange := "", seats := none }

/-- One of the 9999 students already registered for `noCapCourse`. -/
def regStudent : Student :=
  { username := "s", password := "s", name := "S", registrations := ["FREE"] }

/-- A store with 9999 students registered for the uncapped course and one
student `bob` not yet registered. -/
def noCapStore : Store :=
  { users :=
      { admins := [],
        students :=
          List.replicate 9999 regStudent ++
            [{ username := "bob", password := "b", name := "B",
               registrations := [] }] },
    courses := [noCapCourse] }

/-- The seat-usage fold over `n` copies of a student registered for the
course adds `n` to the accumulator. -/
theorem foldl_count_replicate (cid : String) (st : Student)
    (h : st.registrations.contains cid = true) (n acc : Nat) :
    List.foldl
        (fun acc s => acc + (if s.registrations.contains cid then 1 else 0)) acc
        (List.replicate n st) = acc + n := by
  induction n generalizing acc with
  | zero => simp
  | succ n ih =>
    rw [List.replicate_succ, List.foldl_cons, ih, h]
    simp only [if_pos]
    omega

/-- The uncapped course in `noCapStore` has 9999 registered students. -/
theorem seatCount_noCapStore : seatCount noCapStore "FREE" = 9999 := by
  simp only [seatCount, noCapStore]
  rw [List.foldl_append, foldl_count_replicate "FREE" regStudent rfl]
  rfl

/-- C1 counterexample: (a) a course whose stored seat capacity is 0
accepts a registration although usage (0) is at least `seats` (0), where
the claim demands `SeatsFullError`; (b) a course with no stored seat cap
is not unlimited: with 9999 students registered, the next registration
fails with `SeatsFullError`. -/
theorem c1_seats_counterexample :
    (zeroSeatCourse.seats = some 0 ∧ seatCount zeroSeatStore "ZERO" = 0 ∧
      (registerCourse zeroSeatStore "alice" "ZERO").map Prod.snd =
        some "Registered successfully") ∧
    (noCapCourse.seats = none ∧
      registerCourse noCapStore "bob" "FREE" = some (noCapStore, SeatsFullError)) := by
  refine ⟨⟨rfl, rfl, by decide⟩, rfl, ?_⟩
  exact registerCourse_seatsFull noCapStore "bob" "FREE" noCapCourse (by decide)
    (by rw [seatCount_noCapStore]; decide)

/-- A seat-capped course with an empty weekday list (the admin form
permits one) used to exercise double registration. -/
def daylessCourse : Course :=
  { id := "IND1", name := "Independent Study", code := "IND1", description := "",
    days := [], start := "09:00", endT := "10:00", dateRange := "", seats := some 5 }

/-- A store where `dana` is already registered for `daylessCourse`. -/
def danaStore : Store :=
  { users :=
      { admins := [],
        students :=
          [{ username := "dana", password := "d", name := "Dana",
             registrations := ["IND1"] }] },
    courses := [daylessCourse] }

/-- Store `danaStore` after the duplicate registration: `IND1` occurs twice. -/
def danaStoreAfter : Store :=
  { users :=
      { admins := [],
        students :=
          [{ username := "dana", password := "d", name := "Dana",
             registrations := ["IND1", "IND1"] }] },
    courses := [daylessCourse] }

/-- C2: with `dana` already registered for the existing course `IND1`,
which still has free seats, a direct call to `registerCourse` succeeds
and appends `IND1` a second time to her registration list — the
operation has no duplicate-registration guard. -/
theorem c2_double_register :
    danaStore.users.students.map Student.registrations = [["IND1"]] ∧
    seatCount danaStore "IND1" < effSeats daylessCourse.seats ∧
    registerCourse danaStore "dana" "IND1" =
      some (danaStoreAfter, "Registered successfully") ∧
    danaStoreAfter.users.students.map Student.registrations = [["IND1", "IND1"]] := by
  refine ⟨rfl, by decide, by decide, rfl⟩

/-- C10: when the course exists and the seat check passes but no student
carries the requested username, `registerCourse` reads the registration
list of a lookup that found nothing — the JS code throws a `TypeError`
there, modelled by the `none` result of the embedding. -/
theorem c10_registerCourse_missing_student (data : Store) (u cid : String)
    (course : Course)
    (hc : data.courses.find? (fun c => c.id == cid) = some course)
    (hs : seatCount data cid < effSeats course.seats)
    (hstu : data.users.students.find? (fun s => s.username == u) = none) :
    registerCourse data u cid = none := by
  have hs2 : ¬ effSeats course.seats ≤ seatCount data cid := Nat.not_le.mpr hs
  simp [registerCourse, hc, ge_iff_le, hs2, hstu]

/-- Witness for C10: registering the unknown username `ghost` for the
demo course `CSE101`, which exists and has 30 free seats, crashes. -/
theorem c10_registerCourse_missing_student_witness :
    registerCourse defaultData "ghost" "CSE101" = none :=
  c10_registerCourse_missing_student defaultData "ghost" "CSE101"
    { id := "CSE101", name := "Introduction to Programming", code := "CSE101",
      description := "Basics of programming in Python: variables, loops, functions.",
      days := ["Mon", "Wed"], start := "09:00", endT := "10:30",
      dateRange := "2025-12-01 to 2026-03-30", seats := some 30 }
    (by decide) (by decide) (by decide)

end CourseScheduler
